import Mathlib

/-
Verification of the crosshair overlay (generic/tko/tkoGraphHairs.c) and the
Win32 print bridge (tkWinPrint.c) against their design specification.

The C code is shallowly embedded: each C function becomes a Lean function on
an explicit state, with the Tk/Win32 environment (window existence, mapping,
plot bounds, device-call outcomes) passed as an explicit record.  Calls to
XDrawSegments are counted (draws for TurnOnHairs, erases for TurnOffHairs);
Win32 handle acquisitions and releases are counted per handle.
-/

/-- Outcome of a Tcl command: TCL_OK or TCL_ERROR. -/
inductive TclResult where
  | ok : TclResult
  | error : TclResult
deriving DecidableEq, Repr

/-- An X11 point, as in the XPoint used for the crosshair hot spot. -/
structure XPoint where
  x : Int
  y : Int
deriving DecidableEq, Repr

/-- An X11 line segment, as in the XSegment array of the crosshair record. -/
structure XSegment where
  x1 : Int
  y1 : Int
  x2 : Int
  y2 : Int
deriving DecidableEq, Repr

/-- The RbcCrosshairs record of tkoGraphHairs.c.  The two-element segArr is
split into seg0 (vertical hair) and seg1 (horizontal hair); the dash array,
the foreground color pixel and the private GC handle are carried abstractly
(the GC handle as a generation counter bumped when RbcGetPrivateGC allocates
a fresh context). -/
structure RbcCrosshairs where
  hotSpot : XPoint
  visible : Bool
  hidden : Bool
  dashes : List Int
  lineWidth : Int
  seg0 : XSegment
  seg1 : XSegment
  colorPtr : Int
  gc : Nat
deriving DecidableEq, Repr

/-- The Tk environment a crosshair call observes: whether the owning window
exists (graph->win non-NULL and dereferences non-NULL), whether it is mapped,
and the plot bounding box (graph->left/right/top/bottom). -/
structure GraphEnv where
  winExists : Bool
  mapped : Bool
  left : Int
  right : Int
  top : Int
  bottom : Int
deriving DecidableEq, Repr

/-- Effect of a void crosshair routine: the updated record plus the number of
XDrawSegments calls made to draw (XOR on) and to erase (XOR off). -/
structure HairsEff where
  ch : RbcCrosshairs
  draws : Nat
  erases : Nat
deriving DecidableEq, Repr

/-- TurnOffHairs: erase the segments by re-XORing them, if the window is
mapped and the crosshairs are visible. -/
def TurnOffHairs (env : GraphEnv) (ch : RbcCrosshairs) : HairsEff :=
  if env.mapped && ch.visible then
    ⟨{ ch with visible := false }, 0, 1⟩
  else
    ⟨ch, 0, 0⟩

/-- The off-the-plot test of TurnOnHairs lines 176-179: the given hot spot
lies strictly outside the plot bounding box. -/
def hotSpotOffPlot (env : GraphEnv) (p : XPoint) : Bool :=
  decide (p.x > env.right) || decide (p.x < env.left)
    || decide (p.y > env.bottom) || decide (p.y < env.top)

/-- TurnOnHairs: draw the segments by XORing them, if the window exists, is
mapped, the crosshairs are not already visible, and the hot spot lies on the
plot (otherwise the draw is suppressed). -/
def TurnOnHairs (env : GraphEnv) (ch : RbcCrosshairs) : HairsEff :=
  if !env.winExists then
    ⟨ch, 0, 0⟩
  else if env.mapped && !ch.visible then
    if hotSpotOffPlot env ch.hotSpot then
      ⟨ch, 0, 0⟩
    else
      ⟨{ ch with visible := true }, 1, 0⟩
  else
    ⟨ch, 0, 0⟩

/-- RbcConfigureCrosshairs: turn the hairs off, rebuild the private GC from
the current attributes, recompute both segments from the plot bounds and hot
spot, and redraw unless hidden. -/
def RbcConfigureCrosshairs (env : GraphEnv) (ch : RbcCrosshairs) : HairsEff :=
  if !env.winExists then
    ⟨ch, 0, 0⟩
  else
    let e1 := TurnOffHairs env ch
    let ch2 : RbcCrosshairs :=
      { e1.ch with
        gc := e1.ch.gc + 1,
        seg0 := ⟨e1.ch.hotSpot.x, env.bottom, e1.ch.hotSpot.x, env.top⟩,
        seg1 := ⟨env.left, e1.ch.hotSpot.y, env.right, e1.ch.hotSpot.y⟩ }
    if !ch2.hidden then
      let e2 := TurnOnHairs env ch2
      ⟨e2.ch, e2.draws, e1.erases⟩
    else
      ⟨ch2, 0, e1.erases⟩

/-- RbcEnableCrosshairs: draw the hairs unless suppression is requested. -/
def RbcEnableCrosshairs (env : GraphEnv) (ch : RbcCrosshairs) : HairsEff :=
  if !ch.hidden then TurnOnHairs env ch else ⟨ch, 0, 0⟩

/-- RbcDisableCrosshairs: erase the hairs unless suppression is requested;
a no-op when the window does not exist. -/
def RbcDisableCrosshairs (env : GraphEnv) (ch : RbcCrosshairs) : HairsEff :=
  if !env.winExists then ⟨ch, 0, 0⟩
  else if !ch.hidden then TurnOffHairs env ch
  else ⟨ch, 0, 0⟩

/-- RbcUpdateCrosshairs: refresh the span coordinates of both segments from
the current plot bounds; nothing else is touched and nothing is drawn. -/
def RbcUpdateCrosshairs (env : GraphEnv) (ch : RbcCrosshairs) : HairsEff :=
  ⟨{ ch with
      seg0 := { ch.seg0 with y1 := env.bottom, y2 := env.top },
      seg1 := { ch.seg1 with x1 := env.left, x2 := env.right } },
    0, 0⟩

/-- Result of a Tcl-visible crosshair sub-command. -/
structure OpResult where
  res : TclResult
  ch : RbcCrosshairs
  draws : Nat
  erases : Nat
deriving DecidableEq, Repr

/-- OnOp: if hidden, draw the hairs and clear the hidden flag; always
returns TCL_OK (no window-existence check of its own). -/
def OnOp (env : GraphEnv) (ch : RbcCrosshairs) : OpResult :=
  if ch.hidden then
    let e := TurnOnHairs env ch
    ⟨.ok, { e.ch with hidden := false }, e.draws, 0⟩
  else
    ⟨.ok, ch, 0, 0⟩

/-- OffOp: returns TCL_ERROR when the window does not exist; otherwise, if
not hidden, erase the hairs and set the hidden flag. -/
def OffOp (env : GraphEnv) (ch : RbcCrosshairs) : OpResult :=
  if !env.winExists then
    ⟨.error, ch, 0, 0⟩
  else if !ch.hidden then
    let e := TurnOffHairs env ch
    ⟨.ok, { e.ch with hidden := true }, 0, e.erases⟩
  else
    ⟨.ok, ch, 0, 0⟩

/-- ToggleOp: returns TCL_ERROR when the window does not exist; otherwise
flip the hidden flag and erase or draw accordingly. -/
def ToggleOp (env : GraphEnv) (ch : RbcCrosshairs) : OpResult :=
  if !env.winExists then
    ⟨.error, ch, 0, 0⟩
  else
    let ch1 := { ch with hidden := !ch.hidden }
    if ch1.hidden then
      let e := TurnOffHairs env ch1
      ⟨.ok, e.ch, 0, e.erases⟩
    else
      let e := TurnOnHairs env ch1
      ⟨.ok, e.ch, e.draws, 0⟩

/-- An attribute update parsed by Tk_ConfigureWidget over configSpecs: each
recognized option is optionally given a new value. -/
structure AttrUpdate where
  color : Option Int
  dashes : Option (List Int)
  hide : Option Bool
  lineWidth : Option Int
  position : Option XPoint
deriving DecidableEq, Repr

/-- Apply a parsed attribute update to the crosshair record, as
Tk_ConfigureWidget stores each option into its Tk_Offset field. -/
def applyUpdate (u : AttrUpdate) (ch : RbcCrosshairs) : RbcCrosshairs :=
  { ch with
    colorPtr := u.color.getD ch.colorPtr,
    dashes := u.dashes.getD ch.dashes,
    hidden := u.hide.getD ch.hidden,
    lineWidth := u.lineWidth.getD ch.lineWidth,
    hotSpot := u.position.getD ch.hotSpot }

/-- ConfigureOp with two or more option arguments: returns TCL_ERROR when the
window does not exist (before any mutation); otherwise store the parsed
attribute values and call RbcConfigureCrosshairs. -/
def ConfigureOp (env : GraphEnv) (u : AttrUpdate) (ch : RbcCrosshairs) :
    OpResult :=
  if !env.winExists then
    ⟨.error, ch, 0, 0⟩
  else
    let e := RbcConfigureCrosshairs env (applyUpdate u ch)
    ⟨.ok, e.ch, e.draws, e.erases⟩

/-- The crosshair record as RbcCreateCrosshairs initializes it: zeroed by
RbcCalloc, then hidden set and the hot spot set to (-1, -1). -/
def initCrosshairs : RbcCrosshairs :=
  { hotSpot := ⟨-1, -1⟩,
    visible := false,
    hidden := true,
    dashes := [],
    lineWidth := 0,
    seg0 := ⟨0, 0, 0, 0⟩,
    seg1 := ⟨0, 0, 0, 0⟩,
    colorPtr := 0,
    gc := 0 }

/-- The crosshair sub-commands and internal entry points that mutate state. -/
inductive XhairOp where
  | on : XhairOp
  | off : XhairOp
  | toggle : XhairOp
  | enable : XhairOp
  | disable : XhairOp
  | update : XhairOp
  | configure : AttrUpdate → XhairOp
deriving DecidableEq, Repr

/-- One crosshair operation executed against the Tk environment current at
the time of the call. -/
def xhairStep (op : XhairOp) (env : GraphEnv) (ch : RbcCrosshairs) :
    RbcCrosshairs :=
  match op with
  | .on => (OnOp env ch).ch
  | .off => (OffOp env ch).ch
  | .toggle => (ToggleOp env ch).ch
  | .enable => (RbcEnableCrosshairs env ch).ch
  | .disable => (RbcDisableCrosshairs env ch).ch
  | .update => (RbcUpdateCrosshairs env ch).ch
  | .configure u => (ConfigureOp env u ch).ch

/-- Run a sequence of crosshair operations, each observing the Tk
environment in force when it executes. -/
def runXhairs : List (XhairOp × GraphEnv) → RbcCrosshairs → RbcCrosshairs
  | [], ch => ch
  | (op, env) :: rest, ch => runXhairs rest (xhairStep op env ch)

/-
The Win32 canvas print path (WinCanvasPrint of tkWinPrint.c).  Each Win32
call that can succeed or fail is an oracle in the environment; the window
and printer dimensions are the integers GetDeviceCaps and Tk_Width and
Tk_Height report.  The trace counts, per handle, how many times it was
acquired and how many times it was released, and records the destination
rectangle passed to StretchDIBits (the double arithmetic of lines 173-177
is embedded in the rationals).
-/

/-- Outcomes and dimensions observed by one WinCanvasPrint invocation. -/
structure CanvasPrintEnv where
  argcOk : Bool
  windowFound : Bool
  paletteAvailable : Bool
  blitOk : Bool
  getObjectOk : Bool
  dialogOk : Bool
  printDCOk : Bool
  startDocOk : Bool
  startPageOk : Bool
  winWidth : Int
  winHeight : Int
  horzRes : Int
  vertRes : Int
deriving DecidableEq, Repr

/-- Acquisition and release counts of each GDI handle, the Tcl result, and
the StretchDIBits destination size of one WinCanvasPrint invocation. -/
structure CanvasPrintTrace where
  result : TclResult
  acqWinDC : Nat
  relWinDC : Nat
  acqBitmap : Nat
  relBitmap : Nat
  acqMemDC : Nat
  relMemDC : Nat
  acqPalette : Nat
  relPalette : Nat
  acqPrintDC : Nat
  relPrintDC : Nat
  printedDims : Option (ℚ × ℚ)
deriving DecidableEq, Repr

/-- The scale factor of WinCanvasPrint lines 173-175: the printer
resolution divided by the window size per axis, taking the smaller of the
two (fmin), with the double arithmetic embedded in the rationals. -/
def canvasScale (env : CanvasPrintEnv) : ℚ :=
  min ((env.horzRes : ℚ) / (env.winWidth : ℚ))
    ((env.vertRes : ℚ) / (env.winHeight : ℚ))

/-- The cleanup at the done label of WinCanvasPrint: the window DC, bitmap
and memory DC are released, and the palette when one was acquired; the
printer DC is deleted only by the code preceding the label (success path). -/
def canvasDoneTrace (res : TclResult) (pal acqPrint relPrint : Nat)
    (dims : Option (ℚ × ℚ)) : CanvasPrintTrace :=
  ⟨res, 1, 1, 1, 1, 1, 1, pal, pal, acqPrint, relPrint, dims⟩

/-- WinCanvasPrint of tkWinPrint.c, lines 84-215.  Control flow: argument
check, window lookup, window-DC and bitmap and memory-DC and palette
acquisition, BitBlt, GetObject, PrintDlg; within the dialog branch the
printer DC, StartDoc and StartPage checks, StretchDIBits, EndPage, EndDoc,
DeleteDC and the done cleanup; the dialog-cancel branch returns TCL_ERROR
directly without reaching the cleanup. -/
def WinCanvasPrint (env : CanvasPrintEnv) : CanvasPrintTrace :=
  if !env.argcOk then
    ⟨.error, 0, 0, 0, 0, 0, 0, 0, 0, 0, 0, none⟩
  else if !env.windowFound then
    ⟨.error, 0, 0, 0, 0, 0, 0, 0, 0, 0, 0, none⟩
  else
    let pal : Nat := if env.paletteAvailable then 1 else 0
    if !env.blitOk then
      canvasDoneTrace .error pal 0 0 none
    else if !env.getObjectOk then
      canvasDoneTrace .error pal 0 0 none
    else if env.dialogOk then
      if !env.printDCOk then
        canvasDoneTrace .error pal 0 0 none
      else
        let pageWidth := canvasScale env * (env.winWidth : ℚ)
        let pageHeight := canvasScale env * (env.winHeight : ℚ)
        if !env.startDocOk then
          canvasDoneTrace .error pal 1 0 none
        else if !env.startPageOk then
          canvasDoneTrace .error pal 1 0 none
        else
          canvasDoneTrace .ok pal 1 1 (some (pageWidth, pageHeight))
    else
      ⟨.error, 1, 0, 1, 0, 1, 0, pal, 0, 0, 0, none⟩

/-
The Win32 text print path (WinTextPrint of tkWinPrint.c).  DrawText with
DT_CALCRECT is the measuring oracle measure offset count, giving the wrapped
height of count characters of the buffer starting at offset; DrawText
proper, StartPage and EndPage return the integers the environment supplies.
The usable rectangle bottom is page_height - 100 (lines 373-377).
-/

/-- Device-call outcomes and buffer data observed by one WinTextPrint
invocation.  startPageRet, drawRet and endPageRet are indexed by the number
of pages already begun; measure and drawRet also take the buffer offset and
the character count handed to DrawText. -/
structure TextPrintEnv where
  argcOk : Bool
  dialogOk : Bool
  dcOk : Bool
  startDocRet : Int
  startPageRet : Nat → Int
  measure : Nat → Nat → Int
  drawRet : Nat → Nat → Int
  endPageRet : Nat → Int
  printlen : Nat
  page_height : Int

/-- The per-page character-count selection of WinTextPrint, lines 388-416:
low starts at 0, high and textcount at the remaining length; the while body
measures once and then executes its unconditional break, so at most one
update of low, high and textcount happens.  h is the measured wrapped height
of the full remaining text and bottom is the usable rectangle bottom. -/
def selectTextcount (remaining : Nat) (h : Int) (bottom : Int) : Nat :=
  if remaining = 0 then
    remaining
  else
    let low0 : Nat := 0
    let high0 : Nat := remaining
    let textcount0 : Nat := high0
    let low1 := if h < bottom then textcount0 else low0
    let high1 := if h > bottom then textcount0 else high0
    let low2 := if low1 = high1 - 1 then high1 else low1
    if low2 < high1 then low2 + (high1 - low2) / 2 else textcount0

/-- Observable trace of one WinTextPrint invocation: the Tcl result, whether
any user-facing message was appended, whether StartDoc returned success,
how many StartPage and DrawText calls were made, the per-page character
counts actually rendered, the final buffer cursor, and whether EndDoc and
DeleteDC were reached. -/
structure TextPrintTrace where
  result : TclResult
  msg : Bool
  docStarted : Bool
  pagesStarted : Nat
  drawCalls : Nat
  printedCounts : List Nat
  textDone : Nat
  docEnded : Bool
  dcDeleted : Bool
deriving DecidableEq, Repr

/-- The page loop of WinTextPrint, lines 387-434, with a structural fuel
argument (the caller passes printlen + 1, which the progress of textcount
makes sufficient; the fuel-exhausted branch is unreachable then). -/
def textPrintLoop (env : TextPrintEnv) : Nat → Nat → Nat → Nat → List Nat →
    TextPrintTrace
  | 0, textDone, pagesStarted, drawCalls, printed =>
    ⟨.error, true, true, pagesStarted, drawCalls, printed, textDone,
      false, false⟩
  | fuel + 1, textDone, pagesStarted, drawCalls, printed =>
    if textDone < env.printlen then
      if env.startPageRet pagesStarted = 0 then
        ⟨.error, true, true, pagesStarted + 1, drawCalls, printed, textDone,
          false, false⟩
      else
        let remaining := env.printlen - textDone
        let h := env.measure textDone remaining
        let tc := selectTextcount remaining h (env.page_height - 100)
        if env.drawRet textDone tc = 0 then
          ⟨.error, true, true, pagesStarted + 1, drawCalls + 1, printed,
            textDone, false, false⟩
        else
          let printed2 := printed ++ [tc]
          let textDone2 := textDone + tc
          if env.endPageRet pagesStarted = 0 then
            ⟨.error, true, true, pagesStarted + 1, drawCalls + 1, printed2,
              textDone2, false, false⟩
          else if env.endPageRet pagesStarted < 0 then
            ⟨.ok, false, true, pagesStarted + 1, drawCalls + 1, printed2,
              textDone2, true, true⟩
          else
            textPrintLoop env fuel textDone2 (pagesStarted + 1)
              (drawCalls + 1) printed2
    else
      ⟨.ok, false, true, pagesStarted, drawCalls, printed, textDone,
        true, true⟩

/-- WinTextPrint of tkWinPrint.c, lines 231-442: argument check; PrintDlg
(its failure branch falls through to return the initial TCL_OK with no
message); the NULL printer DC check; the StartDoc check against zero (a
negative StartDoc return passes the check but fails the loop condition
output ge 0, so the loop is skipped and EndDoc still runs); then the page
loop. -/
def WinTextPrint (env : TextPrintEnv) : TextPrintTrace :=
  if !env.argcOk then
    ⟨.error, true, false, 0, 0, [], 0, false, false⟩
  else if env.dialogOk then
    if !env.dcOk then
      ⟨.error, true, false, 0, 0, [], 0, false, false⟩
    else if env.startDocRet = 0 then
      ⟨.error, true, false, 0, 0, [], 0, false, false⟩
    else if env.startDocRet < 0 then
      ⟨.ok, false, false, 0, 0, [], 0, true, true⟩
    else
      textPrintLoop env (env.printlen + 1) 0 0 0 []
  else
    ⟨.ok, false, false, 0, 0, [], 0, false, false⟩

/-
Supporting lemmas about the per-page selection: it always makes progress
(at least one character per page) and never selects past the end of the
buffer, which is what makes the fuel printlen + 1 of WinTextPrint ample.
-/

/-- The per-page selection always picks at least one character, so the page
loop makes forward progress. -/
lemma selectTextcount_pos (remaining : Nat) (h bottom : Int)
    (hr : 0 < remaining) : 0 < selectTextcount remaining h bottom := by
  simp only [selectTextcount]
  split_ifs <;> omega

/-- The per-page selection never exceeds the remaining buffer length. -/
lemma selectTextcount_le (remaining : Nat) (h bottom : Int) :
    selectTextcount remaining h bottom ≤ remaining := by
  simp only [selectTextcount]
  split_ifs <;> omega

/-- Every error return of the page loop carries a user-facing message. -/
lemma textPrintLoop_error_msg (env : TextPrintEnv) :
    ∀ fuel textDone pagesStarted drawCalls printed,
      (textPrintLoop env fuel textDone pagesStarted drawCalls
        printed).result = TclResult.error →
      (textPrintLoop env fuel textDone pagesStarted drawCalls
        printed).msg = true := by
  intro fuel
  induction fuel with
  | zero => intro d ps dc pr _; rfl
  | succ n ih =>
    intro d ps dc pr hres
    simp only [textPrintLoop] at hres ⊢
    split_ifs at hres ⊢ with h1 h2 h3 h4 h5
    all_goals first
      | rfl
      | exact ih _ _ _ _ hres

/-
Supporting lemmas for the crosshair resting invariant: each operation run
with the window existing and mapped preserves hidden implies not visible.
-/

/-- One crosshair operation, executed while the window exists and is mapped,
preserves the resting invariant hidden implies not visible. -/
lemma xhairStep_preserves_inv (op : XhairOp) (env : GraphEnv)
    (ch : RbcCrosshairs) (hw : env.winExists = true) (hm : env.mapped = true)
    (hinv : ch.hidden = true → ch.visible = false) :
    (xhairStep op env ch).hidden = true →
    (xhairStep op env ch).visible = false := by
  rcases op with _ | _ | _ | _ | _ | _ | u <;>
    cases hh : ch.hidden <;>
      cases hv : ch.visible <;>
        simp_all [xhairStep, OnOp, OffOp, ToggleOp, RbcEnableCrosshairs,
          RbcDisableCrosshairs, RbcUpdateCrosshairs, ConfigureOp,
          RbcConfigureCrosshairs, TurnOnHairs, TurnOffHairs, applyUpdate] <;>
        split_ifs <;> simp_all

/-- Running a sequence of crosshair operations, each with the window existing
and mapped, preserves the resting invariant from any state satisfying it. -/
lemma runXhairs_preserves_inv (calls : List (XhairOp × GraphEnv)) :
    ∀ ch : RbcCrosshairs,
      (∀ c ∈ calls, c.2.winExists = true ∧ c.2.mapped = true) →
      (ch.hidden = true → ch.visible = false) →
      (runXhairs calls ch).hidden = true →
      (runXhairs calls ch).visible = false := by
  induction calls with
  | nil => intro ch _ hinv; exact hinv
  | cons c rest ih =>
    intro ch hok hinv
    have hc := hok c (List.mem_cons_self c rest)
    exact ih (xhairStep c.1 c.2 ch)
      (fun d hd => hok d (List.mem_cons_of_mem c hd))
      (xhairStep_preserves_inv c.1 c.2 ch hc.1 hc.2 hinv)

/-
Claim C1.
-/

/-- The failing input for claim C1: a four-character buffer whose wrapped
layout occupies 10 device units per character (each character wraps onto its
own line), a usable page rectangle bottom of 15 (page_height 115, so
r.bottom = 115 - 100), and every device call succeeding. -/
def textEnvC1 : TextPrintEnv :=
  { argcOk := true, dialogOk := true, dcOk := true, startDocRet := 1,
    startPageRet := fun _ => 1,
    measure := fun _ count => 10 * (count : Int),
    drawRet := fun _ count => 10 * (count : Int),
    endPageRet := fun _ => 1,
    printlen := 4, page_height := 115 }

/-- Claim C1: the measuring while-loop of WinTextPrint ends in an
unconditional break, so no binary search narrowing happens.  On the failing
input the first page selects two characters although their wrapped height 20
exceeds the usable bottom 15 while one character (height 10) is the largest
fitting count; the run renders page counts [2, 1, 1] and still returns
TCL_OK. -/
theorem claim_C1_pagination_break_bug :
    selectTextcount 4 (textEnvC1.measure 0 4) (textEnvC1.page_height - 100)
        = 2 ∧
    textEnvC1.measure 0 2 > textEnvC1.page_height - 100 ∧
    textEnvC1.measure 0 1 < textEnvC1.page_height - 100 ∧
    (WinTextPrint textEnvC1).printedCounts = [2, 1, 1] ∧
    (WinTextPrint textEnvC1).result = TclResult.ok := by
  decide

/-
Claim C2.
-/

/-- Crosshair state for the C2 counterexample: suppression off. -/
def chC2 : RbcCrosshairs := { initCrosshairs with hidden := false }

/-- Environment for the C2 counterexample: the owning window does not
exist. -/
def envC2 : GraphEnv := ⟨false, false, 0, 10, 0, 10⟩

/-- Claim C2 counterexample: with the owning window not yet existing, the
off operation returns TCL_ERROR, not success. -/
theorem claim_C2_counterexample :
    (OffOp envC2 chC2).res = TclResult.error := rfl

/-- Claim C2 (amended): when the owning window exists but is unmapped,
every operation returns success and issues no draw or erase (though on, off
and toggle may still update the hidden flag); when the window does not
exist, on still returns success without drawing and enable and disable are
no-ops, but off, toggle and configure return TCL_ERROR without mutating the
state. -/
theorem claim_C2_amended (env : GraphEnv) (u : AttrUpdate)
    (ch : RbcCrosshairs) :
    (env.winExists = false →
      OffOp env ch = ⟨.error, ch, 0, 0⟩ ∧
      ToggleOp env ch = ⟨.error, ch, 0, 0⟩ ∧
      ConfigureOp env u ch = ⟨.error, ch, 0, 0⟩ ∧
      (OnOp env ch).res = .ok ∧ (OnOp env ch).draws = 0 ∧
      (OnOp env ch).ch.visible = ch.visible ∧
      RbcEnableCrosshairs env ch = ⟨ch, 0, 0⟩ ∧
      RbcDisableCrosshairs env ch = ⟨ch, 0, 0⟩) ∧
    (env.winExists = true → env.mapped = false →
      (OnOp env ch).res = .ok ∧ (OnOp env ch).draws = 0 ∧
        (OnOp env ch).erases = 0 ∧ (OnOp env ch).ch.visible = ch.visible ∧
      (OffOp env ch).res = .ok ∧ (OffOp env ch).draws = 0 ∧
        (OffOp env ch).erases = 0 ∧ (OffOp env ch).ch.visible = ch.visible ∧
      (ToggleOp env ch).res = .ok ∧ (ToggleOp env ch).draws = 0 ∧
        (ToggleOp env ch).erases = 0 ∧
        (ToggleOp env ch).ch.visible = ch.visible ∧
      (ConfigureOp env u ch).res = .ok ∧ (ConfigureOp env u ch).draws = 0 ∧
        (ConfigureOp env u ch).erases = 0 ∧
        (ConfigureOp env u ch).ch.visible = ch.visible ∧
      RbcEnableCrosshairs env ch = ⟨ch, 0, 0⟩ ∧
      RbcDisableCrosshairs env ch = ⟨ch, 0, 0⟩) := by
  constructor
  · intro hw
    cases hh : ch.hidden <;>
      simp_all [OnOp, OffOp, ToggleOp, ConfigureOp, RbcEnableCrosshairs,
        RbcDisableCrosshairs, RbcConfigureCrosshairs, TurnOnHairs,
        TurnOffHairs, applyUpdate]
  · intro hw hm
    cases hh : ch.hidden <;>
      simp_all [OnOp, OffOp, ToggleOp, ConfigureOp, RbcEnableCrosshairs,
        RbcDisableCrosshairs, RbcConfigureCrosshairs, TurnOnHairs,
        TurnOffHairs, applyUpdate] <;>
      split_ifs <;> simp_all

/-- Claim C2 witness: the amended statement applied at a concrete state with
a nonexistent window, extracting the TCL_ERROR return of off. -/
theorem claim_C2_amended_witness :
    envC2.winExists = false ∧
    OffOp envC2 chC2 = ⟨.error, chC2, 0, 0⟩ :=
  ⟨rfl, ((claim_C2_amended envC2 ⟨none, none, none, none, none⟩ chC2).1
    rfl).1⟩

/-
Claim C3.
-/

/-- A mapped environment whose plot bounds contain the initial hot spot,
used by claim C3. -/
def envC3m : GraphEnv := ⟨true, true, -5, 5, -5, 5⟩

/-- The same window after it has been unmapped, used by claim C3. -/
def envC3u : GraphEnv := ⟨true, false, -5, 5, -5, 5⟩

/-- Claim C3 counterexample: turn the crosshairs on while the window is
mapped, then run off after the window has been unmapped; off sets hidden
but TurnOffHairs skips the erase of an unmapped window, so the state at
rest has hidden and visible both true. -/
theorem claim_C3_counterexample :
    (runXhairs [(XhairOp.on, envC3m), (XhairOp.off, envC3u)]
        initCrosshairs).hidden = true ∧
    (runXhairs [(XhairOp.on, envC3m), (XhairOp.off, envC3u)]
        initCrosshairs).visible = true := by
  decide

/-- Claim C3 (amended): for every state reached from the freshly created
crosshair record by a sequence of operations each executed while the owning
window exists and is mapped, hidden implies not visible at rest. -/
theorem claim_C3_amended (calls : List (XhairOp × GraphEnv))
    (hok : ∀ c ∈ calls, c.2.winExists = true ∧ c.2.mapped = true) :
    (runXhairs calls initCrosshairs).hidden = true →
    (runXhairs calls initCrosshairs).visible = false :=
  runXhairs_preserves_inv calls initCrosshairs hok (fun _ => rfl)

/-- Claim C3 witness: the amended invariant evaluated on the one-call
sequence off executed on a mapped window. -/
theorem claim_C3_amended_witness :
    (runXhairs [(XhairOp.off, envC3m)] initCrosshairs).visible = false :=
  claim_C3_amended [(XhairOp.off, envC3m)]
    (by
      intro c hc
      rw [List.mem_singleton] at hc
      subst hc
      exact ⟨rfl, rfl⟩)
    rfl

/-
Claim C4.
-/

/-- Environment for the C4 counterexample: everything up to the blit
succeeds, the palette exists, and the print dialog is then canceled or
fails. -/
def envC4 : CanvasPrintEnv :=
  ⟨true, true, true, true, true, false, true, true, true, 4, 2, 8, 2⟩

/-- Claim C4 counterexample: on the dialog-canceled exit path of
WinCanvasPrint, the acquired bitmap, memory DC, window DC and palette are
all leaked: each was acquired once and released zero times. -/
theorem claim_C4_counterexample :
    (WinCanvasPrint envC4).acqBitmap = 1 ∧
    (WinCanvasPrint envC4).relBitmap = 0 ∧
    (WinCanvasPrint envC4).acqMemDC = 1 ∧
    (WinCanvasPrint envC4).relMemDC = 0 ∧
    (WinCanvasPrint envC4).acqWinDC = 1 ∧
    (WinCanvasPrint envC4).relWinDC = 0 ∧
    (WinCanvasPrint envC4).acqPalette = 1 ∧
    (WinCanvasPrint envC4).relPalette = 0 := by
  decide

/-- Claim C4 (amended): on every exit path that runs the done cleanup (blit
or GetObject failure before the dialog, and every path on which the dialog
succeeded), the window DC, bitmap, memory DC and palette are each released
exactly as often as acquired; but when the dialog fails after a successful
blit and GetObject, none of the four acquired handles is released, and the
printer DC is released only when StartDoc and StartPage both succeed and is
leaked on the error paths after its acquisition. -/
theorem claim_C4_amended (env : CanvasPrintEnv) (h1 : env.argcOk = true)
    (h2 : env.windowFound = true) :
    ((env.blitOk = false ∨ env.getObjectOk = false ∨ env.dialogOk = true) →
      (WinCanvasPrint env).relWinDC = (WinCanvasPrint env).acqWinDC ∧
      (WinCanvasPrint env).relBitmap = (WinCanvasPrint env).acqBitmap ∧
      (WinCanvasPrint env).relMemDC = (WinCanvasPrint env).acqMemDC ∧
      (WinCanvasPrint env).relPalette = (WinCanvasPrint env).acqPalette) ∧
    (env.blitOk = true → env.getObjectOk = true → env.dialogOk = false →
      (WinCanvasPrint env).acqBitmap = 1 ∧
      (WinCanvasPrint env).relWinDC = 0 ∧
      (WinCanvasPrint env).relBitmap = 0 ∧
      (WinCanvasPrint env).relMemDC = 0 ∧
      (WinCanvasPrint env).relPalette = 0) ∧
    (env.startDocOk = true → env.startPageOk = true →
      (WinCanvasPrint env).relPrintDC = (WinCanvasPrint env).acqPrintDC) ∧
    (env.blitOk = true → env.getObjectOk = true → env.dialogOk = true →
      env.printDCOk = true →
      (env.startDocOk = false ∨ env.startPageOk = false) →
      (WinCanvasPrint env).acqPrintDC = 1 ∧
      (WinCanvasPrint env).relPrintDC = 0) := by
  obtain ⟨a, wfd, pav, bl, go, dl, pdc, sd, sp, w, h, hr, vr⟩ := env
  cases pav <;> cases bl <;> cases go <;> cases dl <;> cases pdc <;>
    cases sd <;> cases sp <;>
      simp_all [WinCanvasPrint, canvasDoneTrace]

/-- Environment for the C4 and C5 witnesses: every step succeeds, window
4 x 2, printable area 8 x 2. -/
def envC45w : CanvasPrintEnv :=
  ⟨true, true, true, true, true, true, true, true, true, 4, 2, 8, 2⟩

/-- Claim C4 witness: the amended statement applied at a fully successful
run, where the bitmap and the printer DC are released exactly as often as
acquired. -/
theorem claim_C4_amended_witness :
    (WinCanvasPrint envC45w).relBitmap = (WinCanvasPrint envC45w).acqBitmap ∧
    (WinCanvasPrint envC45w).relPrintDC =
      (WinCanvasPrint envC45w).acqPrintDC :=
  ⟨(((claim_C4_amended envC45w rfl rfl).1 (Or.inr (Or.inr rfl))).2).1,
    (claim_C4_amended envC45w rfl rfl).2.2.1 rfl rfl⟩

/-
Claim C5.
-/

/-- Claim C5: on the successful canvas-print path with a window of positive
width and height, the destination rectangle passed to StretchDIBits is
scale times the window size with the single factor
scale = min(printableWidth / windowWidth, printableHeight / windowHeight) on
both axes, it fits the printable area, and the aspect ratio of the window is
preserved. -/
theorem claim_C5_uniform_scale (env : CanvasPrintEnv)
    (hargc : env.argcOk = true) (hwin : env.windowFound = true)
    (hblit : env.blitOk = true) (hobj : env.getObjectOk = true)
    (hdlg : env.dialogOk = true) (hdc : env.printDCOk = true)
    (hdoc : env.startDocOk = true) (hpage : env.startPageOk = true)
    (hw : 0 < env.winWidth) (hh : 0 < env.winHeight) :
    (WinCanvasPrint env).printedDims =
      some (canvasScale env * (env.winWidth : ℚ),
        canvasScale env * (env.winHeight : ℚ)) ∧
    canvasScale env * (env.winWidth : ℚ) ≤ (env.horzRes : ℚ) ∧
    canvasScale env * (env.winHeight : ℚ) ≤ (env.vertRes : ℚ) ∧
    canvasScale env * (env.winWidth : ℚ) * (env.winHeight : ℚ) =
      canvasScale env * (env.winHeight : ℚ) * (env.winWidth : ℚ) := by
  have hw0 : (0 : ℚ) < (env.winWidth : ℚ) := by exact_mod_cast hw
  have hh0 : (0 : ℚ) < (env.winHeight : ℚ) := by exact_mod_cast hh
  refine ⟨?_, ?_, ?_, by ring⟩
  · simp [WinCanvasPrint, canvasDoneTrace, hargc, hwin, hblit, hobj, hdlg,
      hdc, hdoc, hpage]
  · calc canvasScale env * (env.winWidth : ℚ)
        ≤ (env.horzRes : ℚ) / (env.winWidth : ℚ) * (env.winWidth : ℚ) :=
          mul_le_mul_of_nonneg_right (min_le_left _ _) (le_of_lt hw0)
      _ = (env.horzRes : ℚ) := div_mul_cancel₀ _ (ne_of_gt hw0)
  · calc canvasScale env * (env.winHeight : ℚ)
        ≤ (env.vertRes : ℚ) / (env.winHeight : ℚ) * (env.winHeight : ℚ) :=
          mul_le_mul_of_nonneg_right (min_le_right _ _) (le_of_lt hh0)
      _ = (env.vertRes : ℚ) := div_mul_cancel₀ _ (ne_of_gt hh0)

/-- Claim C5 witness: the uniform-scale statement at the concrete fully
successful run, where the scale is min(8/4, 2/2) = 1 and the printed size
is 4 x 2. -/
theorem claim_C5_witness :
    (0 : Int) < envC45w.winWidth ∧ (0 : Int) < envC45w.winHeight ∧
    (WinCanvasPrint envC45w).printedDims = some ((4 : ℚ), (2 : ℚ)) := by
  have h := claim_C5_uniform_scale envC45w rfl rfl rfl rfl rfl rfl rfl rfl
    (by decide) (by decide)
  refine ⟨by decide, by decide, ?_⟩
  rw [h.1]
  norm_num [canvasScale, envC45w, min_def]

/-
Claim C6.
-/

/-- Claim C6: with suppression off, the window existing and mapped, and the
hot spot strictly outside the plot bounds, reconfiguration never redraws
(visible is false afterwards and zero draws are issued), and a draw attempt
(enable, or TurnOnHairs itself) from a not-visible state leaves the state
unchanged with zero draws, so visible remains false. -/
theorem claim_C6_offplot_suppressed (env : GraphEnv) (ch : RbcCrosshairs)
    (hhid : ch.hidden = false) (hw : env.winExists = true)
    (hm : env.mapped = true) (hout : hotSpotOffPlot env ch.hotSpot = true) :
    ((RbcConfigureCrosshairs env ch).ch.visible = false ∧
      (RbcConfigureCrosshairs env ch).draws = 0) ∧
    (ch.visible = false →
      RbcEnableCrosshairs env ch = ⟨ch, 0, 0⟩ ∧
      TurnOnHairs env ch = ⟨ch, 0, 0⟩) := by
  constructor
  · cases hv : ch.visible <;>
      simp_all [RbcConfigureCrosshairs, TurnOffHairs, TurnOnHairs]
  · intro hv
    simp_all [RbcEnableCrosshairs, TurnOnHairs]

/-- Environment for the C6 witness: mapped window with plot bounds
[0, 10] x [0, 10]. -/
def envC6 : GraphEnv := ⟨true, true, 0, 10, 0, 10⟩

/-- Crosshair state for the C6 witness: suppression off, hot spot at
(100, 5), strictly right of the plot. -/
def chC6 : RbcCrosshairs :=
  { initCrosshairs with hidden := false, hotSpot := ⟨100, 5⟩ }

/-- Claim C6 witness: the off-plot suppression statement at the concrete
state with the hot spot right of the plot. -/
theorem claim_C6_witness :
    chC6.hidden = false ∧
    ((RbcConfigureCrosshairs envC6 chC6).ch.visible = false ∧
      (RbcConfigureCrosshairs envC6 chC6).draws = 0) :=
  ⟨rfl,
    (claim_C6_offplot_suppressed envC6 chC6 rfl rfl rfl (by decide)).1⟩

/-
Claim C7.
-/

/-- Claim C7: RbcUpdateCrosshairs issues no draw or erase and changes only
the span coordinates of the two segments, recomputed from the current plot
bounds; hidden, visible, the hot spot and every other field are
unchanged. -/
theorem claim_C7_update_geometry (env : GraphEnv) (ch : RbcCrosshairs) :
    (RbcUpdateCrosshairs env ch).draws = 0 ∧
    (RbcUpdateCrosshairs env ch).erases = 0 ∧
    (RbcUpdateCrosshairs env ch).ch.hidden = ch.hidden ∧
    (RbcUpdateCrosshairs env ch).ch.visible = ch.visible ∧
    (RbcUpdateCrosshairs env ch).ch.hotSpot = ch.hotSpot ∧
    (RbcUpdateCrosshairs env ch).ch.dashes = ch.dashes ∧
    (RbcUpdateCrosshairs env ch).ch.lineWidth = ch.lineWidth ∧
    (RbcUpdateCrosshairs env ch).ch.colorPtr = ch.colorPtr ∧
    (RbcUpdateCrosshairs env ch).ch.gc = ch.gc ∧
    (RbcUpdateCrosshairs env ch).ch.seg0 =
      ⟨ch.seg0.x1, env.bottom, ch.seg0.x2, env.top⟩ ∧
    (RbcUpdateCrosshairs env ch).ch.seg1 =
      ⟨env.left, ch.seg1.y1, env.right, ch.seg1.y2⟩ :=
  ⟨rfl, rfl, rfl, rfl, rfl, rfl, rfl, rfl, rfl, rfl, rfl⟩

/-
Claim C8.
-/

/-- Environment for the C8 counterexample: mapped window, plot bounds
[0, 10] x [0, 10]. -/
def envC8 : GraphEnv := ⟨true, true, 0, 10, 0, 10⟩

/-- Crosshair state for the C8 counterexample: suppression off and the
hairs already visible, hot spot on the plot. -/
def chC8 : RbcCrosshairs :=
  { initCrosshairs with
    hidden := false
    visible := true
    hotSpot := ⟨5, 5⟩ }

/-- Claim C8 counterexample: from a state with hidden false and visible
already true, two consecutive enable calls issue zero draw calls in total,
not exactly one. -/
theorem claim_C8_counterexample :
    (RbcEnableCrosshairs envC8 chC8).draws +
      (RbcEnableCrosshairs envC8
        (RbcEnableCrosshairs envC8 chC8).ch).draws = 0 := by
  decide

/-- Claim C8 (amended): enable is idempotent and the second of two
consecutive enable calls never draws, so the pair issues the same number of
draw calls as a single call, which is at most one: exactly one precisely
when hidden is false, the window exists and is mapped, the hairs are not
already visible and the hot spot is on the plot; and with hidden true,
enable is a complete no-op. -/
theorem claim_C8_amended (env : GraphEnv) (ch : RbcCrosshairs) :
    (RbcEnableCrosshairs env (RbcEnableCrosshairs env ch).ch).ch =
      (RbcEnableCrosshairs env ch).ch ∧
    (RbcEnableCrosshairs env (RbcEnableCrosshairs env ch).ch).draws = 0 ∧
    (RbcEnableCrosshairs env ch).draws ≤ 1 ∧
    ((RbcEnableCrosshairs env ch).draws = 1 ↔
      (ch.hidden = false ∧ env.winExists = true ∧ env.mapped = true ∧
        ch.visible = false ∧ hotSpotOffPlot env ch.hotSpot = false)) ∧
    (ch.hidden = true → RbcEnableCrosshairs env ch = ⟨ch, 0, 0⟩) := by
  cases hoff : hotSpotOffPlot env ch.hotSpot <;>
    cases hh : ch.hidden <;> cases hv : ch.visible <;>
      cases hwE : env.winExists <;> cases hm : env.mapped <;>
        simp_all [RbcEnableCrosshairs, TurnOnHairs]

/-- Claim C8 witness: the amended statement applied at the concrete
already-visible state, extracting that the second call draws nothing and
that a single call draws at most once. -/
theorem claim_C8_amended_witness :
    chC8.hidden = false ∧
    (RbcEnableCrosshairs envC8 (RbcEnableCrosshairs envC8 chC8).ch).draws
      = 0 ∧
    (RbcEnableCrosshairs envC8 chC8).draws ≤ 1 :=
  ⟨rfl, (claim_C8_amended envC8 chC8).2.1,
    (claim_C8_amended envC8 chC8).2.2.1⟩

/-
Claim C9.
-/

/-- Environment for the C9 counterexample: well-formed arguments but the
print dialog fails (or is canceled); all later oracles are irrelevant. -/
def envC9 : TextPrintEnv :=
  { argcOk := true, dialogOk := false, dcOk := true, startDocRet := 1,
    startPageRet := fun _ => 1, measure := fun _ count => (count : Int),
    drawRet := fun _ _ => 1, endPageRet := fun _ => 1,
    printlen := 5, page_height := 200 }

/-- Claim C9 counterexample: when the print dialog fails, WinTextPrint
falls through to its initial TCL_OK and returns success with no message and
nothing printed, instead of aborting with an error. -/
theorem claim_C9_counterexample :
    (WinTextPrint envC9).result = TclResult.ok ∧
    (WinTextPrint envC9).msg = false ∧
    (WinTextPrint envC9).pagesStarted = 0 :=
  ⟨rfl, rfl, rfl⟩

/-- Claim C9 (amended): a wrong argument count, a NULL printer DC, and a
zero StartDoc return abort immediately with TCL_ERROR and a user-facing
message; once the page loop is reached (WinTextPrint runs textPrintLoop),
a zero StartPage return aborts the run before any draw on that page, a zero
DrawText return aborts after that single draw call with nothing rendered,
and a zero EndPage return aborts without ending the document, each with
TCL_ERROR and a message, at every page of every run; indeed every error
return carries a message.  But a print-dialog failure returns TCL_OK
silently with no document started and nothing printed. -/
theorem claim_C9_amended (env : TextPrintEnv) :
    (env.argcOk = false →
      (WinTextPrint env).result = TclResult.error ∧
      (WinTextPrint env).msg = true) ∧
    (env.argcOk = true → env.dialogOk = false →
      (WinTextPrint env).result = TclResult.ok ∧
      (WinTextPrint env).msg = false ∧
      (WinTextPrint env).docStarted = false ∧
      (WinTextPrint env).pagesStarted = 0 ∧
      (WinTextPrint env).drawCalls = 0) ∧
    (env.argcOk = true → env.dialogOk = true → env.dcOk = false →
      (WinTextPrint env).result = TclResult.error ∧
      (WinTextPrint env).msg = true) ∧
    (env.argcOk = true → env.dialogOk = true → env.dcOk = true →
      env.startDocRet = 0 →
      (WinTextPrint env).result = TclResult.error ∧
      (WinTextPrint env).msg = true) ∧
    (env.argcOk = true → env.dialogOk = true → env.dcOk = true →
      0 < env.startDocRet →
      WinTextPrint env = textPrintLoop env (env.printlen + 1) 0 0 0 []) ∧
    (∀ fuel textDone pagesStarted drawCalls printed,
      textDone < env.printlen →
      env.startPageRet pagesStarted = 0 →
      (textPrintLoop env (fuel + 1) textDone pagesStarted drawCalls
          printed).result = TclResult.error ∧
      (textPrintLoop env (fuel + 1) textDone pagesStarted drawCalls
          printed).msg = true ∧
      (textPrintLoop env (fuel + 1) textDone pagesStarted drawCalls
          printed).pagesStarted = pagesStarted + 1 ∧
      (textPrintLoop env (fuel + 1) textDone pagesStarted drawCalls
          printed).drawCalls = drawCalls ∧
      (textPrintLoop env (fuel + 1) textDone pagesStarted drawCalls
          printed).printedCounts = printed ∧
      (textPrintLoop env (fuel + 1) textDone pagesStarted drawCalls
          printed).docEnded = false ∧
      (textPrintLoop env (fuel + 1) textDone pagesStarted drawCalls
          printed).dcDeleted = false) ∧
    (∀ fuel textDone pagesStarted drawCalls printed,
      textDone < env.printlen →
      env.startPageRet pagesStarted ≠ 0 →
      env.drawRet textDone (selectTextcount (env.printlen - textDone)
          (env.measure textDone (env.printlen - textDone))
          (env.page_height - 100)) = 0 →
      (textPrintLoop env (fuel + 1) textDone pagesStarted drawCalls
          printed).result = TclResult.error ∧
      (textPrintLoop env (fuel + 1) textDone pagesStarted drawCalls
          printed).msg = true ∧
      (textPrintLoop env (fuel + 1) textDone pagesStarted drawCalls
          printed).drawCalls = drawCalls + 1 ∧
      (textPrintLoop env (fuel + 1) textDone pagesStarted drawCalls
          printed).printedCounts = printed ∧
      (textPrintLoop env (fuel + 1) textDone pagesStarted drawCalls
          printed).docEnded = false ∧
      (textPrintLoop env (fuel + 1) textDone pagesStarted drawCalls
          printed).dcDeleted = false) ∧
    (∀ fuel textDone pagesStarted drawCalls printed,
      textDone < env.printlen →
      env.startPageRet pagesStarted ≠ 0 →
      env.drawRet textDone (selectTextcount (env.printlen - textDone)
          (env.measure textDone (env.printlen - textDone))
          (env.page_height - 100)) ≠ 0 →
      env.endPageRet pagesStarted = 0 →
      (textPrintLoop env (fuel + 1) textDone pagesStarted drawCalls
          printed).result = TclResult.error ∧
      (textPrintLoop env (fuel + 1) textDone pagesStarted drawCalls
          printed).msg = true ∧
      (textPrintLoop env (fuel + 1) textDone pagesStarted drawCalls
          printed).pagesStarted = pagesStarted + 1 ∧
      (textPrintLoop env (fuel + 1) textDone pagesStarted drawCalls
          printed).docEnded = false ∧
      (textPrintLoop env (fuel + 1) textDone pagesStarted drawCalls
          printed).dcDeleted = false) ∧
    ((WinTextPrint env).result = TclResult.error →
      (WinTextPrint env).msg = true) := by
  refine ⟨?_, ?_, ?_, ?_, ?_, ?_, ?_, ?_, ?_⟩
  · intro h; simp [WinTextPrint, h]
  · intro h1 h2; simp [WinTextPrint, h1, h2]
  · intro h1 h2 h3; simp [WinTextPrint, h1, h2, h3]
  · intro h1 h2 h3 h4; simp [WinTextPrint, h1, h2, h3, h4]
  · intro h1 h2 h3 h4
    have h40 : ¬env.startDocRet = 0 := by omega
    have h41 : ¬env.startDocRet < 0 := by omega
    simp [WinTextPrint, h1, h2, h3, h40, h41]
  · intro fuel d ps dc pr hd hsp
    simp [textPrintLoop, hd, hsp]
  · intro fuel d ps dc pr hd hsp hdr
    simp [textPrintLoop, hd, hsp, hdr]
  · intro fuel d ps dc pr hd hsp hdr hep
    simp [textPrintLoop, hd, hsp, hdr, hep]
  · intro hres
    unfold WinTextPrint at hres ⊢
    split_ifs at hres ⊢
    all_goals first
      | rfl
      | (simp at hres)
      | exact textPrintLoop_error_msg env _ _ _ _ _ hres

/-- Environment for the C9 witness: a wrong argument count. -/
def envC9w : TextPrintEnv := { envC9 with argcOk := false }

/-- Second environment for the C9 witness: the preamble succeeds on a
three-character buffer but StartPage returns zero on the first page. -/
def envC9p : TextPrintEnv :=
  { argcOk := true, dialogOk := true, dcOk := true, startDocRet := 1,
    startPageRet := fun _ => 0, measure := fun _ count => (count : Int),
    drawRet := fun _ _ => 1, endPageRet := fun _ => 1,
    printlen := 3, page_height := 200 }

/-- Claim C9 witness: the amended statement applied at the concrete
wrong-argument-count invocation, and at the concrete run whose first
StartPage call fails, which aborts with TCL_ERROR and a message. -/
theorem claim_C9_amended_witness :
    envC9w.argcOk = false ∧
    (WinTextPrint envC9w).result = TclResult.error ∧
    (WinTextPrint envC9w).msg = true ∧
    envC9p.startPageRet 0 = 0 ∧
    (WinTextPrint envC9p).result = TclResult.error ∧
    (WinTextPrint envC9p).msg = true := by
  have h1 := (claim_C9_amended envC9w).1 rfl
  have h0 := (claim_C9_amended envC9p).2.2.2.2.1 rfl rfl rfl (by decide)
  have h2 := (claim_C9_amended envC9p).2.2.2.2.2.1 envC9p.printlen 0 0 0 []
    (by decide) rfl
  exact ⟨rfl, h1.1, h1.2, rfl, by rw [h0]; exact h2.1,
    by rw [h0]; exact h2.2.1⟩

/-
Claim C10.
-/

/-- Claim C10: with the dialog succeeding, a printer DC allocated and
StartDoc returning success, a zero-length buffer makes WinTextPrint start
the document, enter the page loop zero times (no StartPage and no DrawText
call, nothing rendered), end the document, delete the DC and return
TCL_OK. -/
theorem claim_C10_empty_buffer (env : TextPrintEnv)
    (h1 : env.argcOk = true) (h2 : env.dialogOk = true)
    (h3 : env.dcOk = true) (h4 : 0 < env.startDocRet)
    (h5 : env.printlen = 0) :
    (WinTextPrint env).result = TclResult.ok ∧
    (WinTextPrint env).docStarted = true ∧
    (WinTextPrint env).pagesStarted = 0 ∧
    (WinTextPrint env).drawCalls = 0 ∧
    (WinTextPrint env).printedCounts = [] ∧
    (WinTextPrint env).docEnded = true ∧
    (WinTextPrint env).dcDeleted = true := by
  have h40 : ¬env.startDocRet = 0 := by omega
  have h41 : ¬env.startDocRet < 0 := by omega
  simp [WinTextPrint, textPrintLoop, h1, h2, h3, h40, h41, h5]

/-- Environment for the C10 witness: every device call succeeds and the
buffer is empty. -/
def envC10 : TextPrintEnv :=
  { argcOk := true, dialogOk := true, dcOk := true, startDocRet := 1,
    startPageRet := fun _ => 1, measure := fun _ count => (count : Int),
    drawRet := fun _ _ => 1, endPageRet := fun _ => 1,
    printlen := 0, page_height := 200 }

/-- Claim C10 witness: the empty-buffer statement at the concrete
all-succeeding environment. -/
theorem claim_C10_witness :
    (0 : Int) < envC10.startDocRet ∧ envC10.printlen = 0 ∧
    (WinTextPrint envC10).result = TclResult.ok ∧
    (WinTextPrint envC10).pagesStarted = 0 := by
  have h := claim_C10_empty_buffer envC10 rfl rfl rfl (by decide) rfl
  exact ⟨by decide, rfl, h.1, h.2.2.1⟩
